import Mathlib

/-
A formal model of the IoT protocol comparison calculator in app.py:
the protocol catalog, the traffic scenario, the estimation engine
`estimate`, and the summary superlatives.  All numeric quantities are carried as exact rationals.
-/

/-- Truncating conversion of a rational to an integer, rounding toward
zero, as Python's int cast on line 41 of app.py does. -/
def pyInt (q : ℚ) : ℤ := Int.tdiv q.num (q.den : ℤ)

/-- Parameter record of one protocol (app.py lines 14-25). -/
structure ProtocolParams where
  name : String
  bitrate_bps : ℚ
  tx_current_mA : ℚ
  rx_current_mA : ℚ
  idle_current_mA : ℚ
  range_m : ℚ
  overhead_bytes : ℤ
  base_latency_ms : ℚ
  duty_cycle_limit : ℚ
  notes : String := ""

/-- The WiFi catalog entry (app.py line 29). -/
def wifiParams : ProtocolParams :=
  ⟨"WiFi", 10000000, 180, 50, 5, 30, 80, 50, 1, "alto throughput"⟩

/-- The Zigbee catalog entry (app.py line 30). -/
def zigbeeParams : ProtocolParams :=
  ⟨"Zigbee", 250000, 35, 19, 3/10, 100, 25, 100, 1, "malla, bajo consumo"⟩

/-- The LoRaWAN catalog entry (app.py line 31). -/
def lorawanParams : ProtocolParams :=
  ⟨"LoRaWAN", 5000, 45, 12, 1/100, 15000, 20, 800, 1/100, "largo alcance, bajo bitrate"⟩

/-- The NB-IoT catalog entry (app.py line 32). -/
def nbiotParams : ProtocolParams :=
  ⟨"NB-IoT", 26000, 220, 30, 1/20, 10000, 30, 200, 1, "cobertura celular"⟩

/-- The fixed four-entry catalog (app.py lines 27-33). -/
def default_protocols : List ProtocolParams :=
  [wifiParams, zigbeeParams, lorawanParams, nbiotParams]

/-- Traffic scenario record (app.py lines 35-37). -/
structure Scenario where
  n_sensors : ℤ
  msgs_per_day : ℤ
  payload_bytes : ℤ
  rx_ratio : ℚ

/-- Scenario constructor, mirroring the dict builder (app.py lines 35-37). -/
def scenario (n_sensors msgs_per_day payload_bytes : ℤ) (rx_ratio : ℚ) : Scenario :=
  ⟨n_sensors, msgs_per_day, payload_bytes, rx_ratio⟩

/-- The scenario built from the UI defaults: n_sensors=100, msgs_per_day=24,
payload_bytes=50, rx_ratio=0.1 (app.py lines 75-78). -/
def defaultScenario : Scenario := scenario 100 24 50 (1/10)

/-- Battery life in days: a finite rational, or the positive infinity
produced by numpy when daily consumption is not positive (app.py line 56). -/
inductive BatteryDays where
  | finite (days : ℚ)
  | posInf

/-- Result record returned by the engine (app.py lines 57-64). -/
structure EstimationResult where
  protocol : String
  consumo_mAh_dia : ℚ
  latencia_ms : ℚ
  cobertura_m : ℚ
  dias_bateria : BatteryDays
  notas : String

/-- Total message size in bytes (app.py line 41):
payload plus the truncated product of overhead and header factor. -/
def bytes_total (proto : ProtocolParams) (sc : Scenario) (header_factor : ℚ) : ℤ :=
  sc.payload_bytes + pyInt ((proto.overhead_bytes : ℚ) * header_factor)

/-- Total message size in bits (app.py line 42). -/
def bits_total (proto : ProtocolParams) (sc : Scenario) (header_factor : ℚ) : ℤ :=
  bytes_total proto sc header_factor * 8

/-- Transmission time in seconds before the duty-cycle adjustment
(the first binding of tx_time_s, app.py line 43). -/
def tx_time_s_pre (proto : ProtocolParams) (sc : Scenario) (header_factor : ℚ) : ℚ :=
  (bits_total proto sc header_factor : ℚ) / proto.bitrate_bps

/-- Reception time in seconds, derived from the pre-adjustment
transmission time (app.py line 44). -/
def rx_time_s (proto : ProtocolParams) (sc : Scenario) (header_factor : ℚ) : ℚ :=
  tx_time_s_pre proto sc header_factor * sc.rx_ratio

/-- Transmission time after the duty-cycle adjustment
(app.py lines 45-46): divided by the limit only when the limit is below one. -/
def tx_time_s (proto : ProtocolParams) (sc : Scenario) (header_factor : ℚ) : ℚ :=
  if proto.duty_cycle_limit < 1 then
    tx_time_s_pre proto sc header_factor / proto.duty_cycle_limit
  else tx_time_s_pre proto sc header_factor

/-- Daily transmit hours (app.py line 47). -/
def tx_total_h (proto : ProtocolParams) (sc : Scenario) (header_factor : ℚ) : ℚ :=
  tx_time_s proto sc header_factor * (sc.msgs_per_day : ℚ) / 3600

/-- Daily receive hours (app.py line 48). -/
def rx_total_h (proto : ProtocolParams) (sc : Scenario) (header_factor : ℚ) : ℚ :=
  rx_time_s proto sc header_factor * (sc.msgs_per_day : ℚ) / 3600

/-- Daily active hours (app.py line 49). -/
def active_h (proto : ProtocolParams) (sc : Scenario) (header_factor : ℚ) : ℚ :=
  tx_total_h proto sc header_factor + rx_total_h proto sc header_factor

/-- Daily idle hours, clamped at zero (app.py line 50). -/
def idle_h (proto : ProtocolParams) (sc : Scenario) (header_factor : ℚ) : ℚ :=
  max 0 (24 - active_h proto sc header_factor)

/-- Daily charge consumption per sensor in mAh (app.py lines 51-54). -/
def daily_mAh_per_sensor (proto : ProtocolParams) (sc : Scenario) (header_factor : ℚ) : ℚ :=
  proto.tx_current_mA * tx_total_h proto sc header_factor +
    proto.rx_current_mA * rx_total_h proto sc header_factor +
    proto.idle_current_mA * idle_h proto sc header_factor

/-- Estimated latency in milliseconds (app.py line 55), built from the
duty-cycle-adjusted transmission time. -/
def latency_ms (proto : ProtocolParams) (sc : Scenario) (header_factor : ℚ) : ℚ :=
  proto.base_latency_ms + tx_time_s proto sc header_factor * 1000

/-- The estimation engine (app.py lines 39-64). -/
def estimate (proto : ProtocolParams) (sc : Scenario) (battery_mAh : ℚ)
    (header_factor : ℚ) : EstimationResult :=
  { protocol := proto.name,
    consumo_mAh_dia := daily_mAh_per_sensor proto sc header_factor,
    latencia_ms := latency_ms proto sc header_factor,
    cobertura_m := proto.range_m,
    dias_bateria :=
      if 0 < daily_mAh_per_sensor proto sc header_factor then
        BatteryDays.finite (battery_mAh / daily_mAh_per_sensor proto sc header_factor)
      else BatteryDays.posInf,
    notas := proto.notes }

/-- First element attaining the minimal value of f, the semantics of the
pandas idxmin lookup (app.py lines 114, 116), which returns the first
occurrence of the minimum. -/
def firstMinBy (f : EstimationResult → ℚ) : List EstimationResult → Option EstimationResult
  | [] => none
  | r :: rest =>
    match firstMinBy f rest with
    | none => some r
    | some s => if f r ≤ f s then some r else some s

/-- First element attaining the maximal value of f, the semantics of the
pandas idxmax lookup (app.py line 115), which returns the first
occurrence of the maximum. -/
def firstMaxBy (f : EstimationResult → ℚ) : List EstimationResult → Option EstimationResult
  | [] => none
  | r :: rest =>
    match firstMaxBy f rest with
    | none => some r
    | some s => if f s ≤ f r then some r else some s

/-- Name of the protocol with minimal consumo_mAh_dia (app.py line 114). -/
def best_energy (rs : List EstimationResult) : Option String :=
  (firstMinBy (fun r => r.consumo_mAh_dia) rs).map (fun r => r.protocol)

/-- Name of the protocol with maximal cobertura_m (app.py line 115). -/
def best_coverage (rs : List EstimationResult) : Option String :=
  (firstMaxBy (fun r => r.cobertura_m) rs).map (fun r => r.protocol)

/-- Name of the protocol with minimal latencia_ms (app.py line 116). -/
def best_latency (rs : List EstimationResult) : Option String :=
  (firstMinBy (fun r => r.latencia_ms) rs).map (fun r => r.protocol)

/-- Variant engine that derives rx_time_s from the duty-cycle-adjusted
transmission time instead of the pre-adjustment one; it exists only to
show that the ordering in app.py lines 44-46 (rx derived first, duty
division applied afterwards and to tx only) is observable. -/
def estimateRxAfterDuty (proto : ProtocolParams) (sc : Scenario) (battery_mAh : ℚ)
    (header_factor : ℚ) : EstimationResult :=
  let rx_after : ℚ := tx_time_s proto sc header_factor * sc.rx_ratio
  let rx_h : ℚ := rx_after * (sc.msgs_per_day : ℚ) / 3600
  let daily : ℚ :=
    proto.tx_current_mA * tx_total_h proto sc header_factor +
      proto.rx_current_mA * rx_h +
      proto.idle_current_mA * max 0 (24 - (tx_total_h proto sc header_factor + rx_h))
  { protocol := proto.name,
    consumo_mAh_dia := daily,
    latencia_ms := latency_ms proto sc header_factor,
    cobertura_m := proto.range_m,
    dias_bateria :=
      if 0 < daily then BatteryDays.finite (battery_mAh / daily) else BatteryDays.posInf,
    notas := proto.notes }

/-- Synthetic protocol with all three currents equal to zero, for the
zero-consumption edge case. -/
def zeroCurrentParams : ProtocolParams :=
  ⟨"ZeroCurrent", 5000, 0, 0, 0, 1, 20, 0, 1, ""⟩

/-- Synthetic protocol whose idle current exceeds its tx and rx
currents, with duty_cycle_limit one. -/
def idleHeavyParams : ProtocolParams :=
  ⟨"IdleHeavy", 2, 0, 0, 1, 1, 0, 0, 1, ""⟩

/-
Helper lemmas shared by the claim theorems.
-/

theorem pyInt_nonneg {q : ℚ} (h : 0 ≤ q) : 0 ≤ pyInt q :=
  Int.tdiv_nonneg (Rat.num_nonneg.mpr h) (by positivity)

theorem payload_le_bytes_total (proto : ProtocolParams) (sc : Scenario) {hf : ℚ}
    (hov : 0 ≤ proto.overhead_bytes) (hhf : 0 ≤ hf) :
    sc.payload_bytes ≤ bytes_total proto sc hf := by
  have h : (0 : ℚ) ≤ (proto.overhead_bytes : ℚ) * hf := by
    have : (0 : ℚ) ≤ (proto.overhead_bytes : ℚ) := by exact_mod_cast hov
    exact mul_nonneg this hhf
  have := pyInt_nonneg h
  simp only [bytes_total]
  omega

theorem tx_time_s_pre_nonneg (proto : ProtocolParams) (sc : Scenario) {hf : ℚ}
    (hbr : 0 < proto.bitrate_bps) (hp : 0 ≤ sc.payload_bytes)
    (hov : 0 ≤ proto.overhead_bytes) (hhf : 0 ≤ hf) :
    0 ≤ tx_time_s_pre proto sc hf := by
  have hb : 0 ≤ bytes_total proto sc hf := le_trans hp (payload_le_bytes_total proto sc hov hhf)
  have hb2 : (0 : ℚ) ≤ (bytes_total proto sc hf : ℚ) := by exact_mod_cast hb
  have hbits : (0 : ℚ) ≤ (bits_total proto sc hf : ℚ) := by
    simp only [bits_total]; push_cast; nlinarith [hb2]
  exact div_nonneg hbits (le_of_lt hbr)

theorem tx_time_s_pre_pos (proto : ProtocolParams) (sc : Scenario) {hf : ℚ}
    (hbr : 0 < proto.bitrate_bps) (hp : 1 ≤ sc.payload_bytes)
    (hov : 0 ≤ proto.overhead_bytes) (hhf : 0 ≤ hf) :
    0 < tx_time_s_pre proto sc hf := by
  have hb : 1 ≤ bytes_total proto sc hf := le_trans hp (payload_le_bytes_total proto sc hov hhf)
  have hb2 : (1 : ℚ) ≤ (bytes_total proto sc hf : ℚ) := by exact_mod_cast hb
  have hbits : (0 : ℚ) < (bits_total proto sc hf : ℚ) := by
    simp only [bits_total]; push_cast; nlinarith [hb2]
  exact div_pos hbits hbr

theorem tx_time_s_nonneg (proto : ProtocolParams) (sc : Scenario) {hf : ℚ}
    (hbr : 0 < proto.bitrate_bps) (hd : 0 < proto.duty_cycle_limit)
    (hp : 0 ≤ sc.payload_bytes) (hov : 0 ≤ proto.overhead_bytes) (hhf : 0 ≤ hf) :
    0 ≤ tx_time_s proto sc hf := by
  have hpre := tx_time_s_pre_nonneg proto sc hbr hp hov hhf
  simp only [tx_time_s]
  split
  · exact div_nonneg hpre (le_of_lt hd)
  · exact hpre

theorem tx_time_s_pos (proto : ProtocolParams) (sc : Scenario) {hf : ℚ}
    (hbr : 0 < proto.bitrate_bps) (hd : 0 < proto.duty_cycle_limit)
    (hp : 1 ≤ sc.payload_bytes) (hov : 0 ≤ proto.overhead_bytes) (hhf : 0 ≤ hf) :
    0 < tx_time_s proto sc hf := by
  have hpre := tx_time_s_pre_pos proto sc hbr hp hov hhf
  simp only [tx_time_s]
  split
  · exact div_pos hpre hd
  · exact hpre

/-
Claim theorems.
-/

/-- C1: estimate computes bytes_total as payload plus the truncated
product of overhead and header factor, bits_total as eight times that,
and the pre-adjustment tx_time_s as bits_total over the bitrate; this is
visible in the latency output whenever the duty-cycle limit is at least
one, and for the WiFi catalog entry under the default scenario it gives
bytes_total 130, bits_total 1040 and tx_time_s 1040/10^7 = 1.04e-4. -/
theorem C1_estimate_formula_and_wifi_golden :
    (∀ (proto : ProtocolParams) (sc : Scenario) (b hf : ℚ),
      1 ≤ proto.duty_cycle_limit →
      (estimate proto sc b hf).latencia_ms =
        proto.base_latency_ms +
          (((sc.payload_bytes + pyInt ((proto.overhead_bytes : ℚ) * hf)) * 8 : ℤ) : ℚ) /
            proto.bitrate_bps * 1000) ∧
    bytes_total wifiParams defaultScenario 1 = 130 ∧
    bits_total wifiParams defaultScenario 1 = 1040 ∧
    tx_time_s_pre wifiParams defaultScenario 1 = 1040 / 10000000 ∧
    (estimate wifiParams defaultScenario 2400 1).latencia_ms = 50 + (1040 / 10000000) * 1000 := by
  refine ⟨fun proto sc b hf hd => ?_, ?_, ?_, ?_, ?_⟩
  · have hnot : ¬ proto.duty_cycle_limit < 1 := not_lt.mpr hd
    simp [estimate, latency_ms, tx_time_s, tx_time_s_pre, bits_total, bytes_total, hnot]
  · norm_num [bytes_total, pyInt, wifiParams, defaultScenario, scenario]
  · norm_num [bits_total, bytes_total, pyInt, wifiParams, defaultScenario, scenario]
  · norm_num [tx_time_s_pre, bits_total, bytes_total, pyInt, wifiParams, defaultScenario, scenario]
  · norm_num [estimate, latency_ms, tx_time_s, tx_time_s_pre, bits_total, bytes_total, pyInt,
      wifiParams, defaultScenario, scenario]

/-- Witness for C1: the general latency formula applied to the Zigbee
entry (duty-cycle limit one) under the default scenario. -/
theorem C1_witness :
    (estimate zigbeeParams defaultScenario 2400 1).latencia_ms =
      zigbeeParams.base_latency_ms +
        (((defaultScenario.payload_bytes +
            pyInt ((zigbeeParams.overhead_bytes : ℚ) * 1)) * 8 : ℤ) : ℚ) /
          zigbeeParams.bitrate_bps * 1000 :=
  C1_estimate_formula_and_wifi_golden.1 zigbeeParams defaultScenario 2400 1 (by norm_num [zigbeeParams])

/-- C2: rx_time_s is derived from the pre-adjustment tx_time_s, and the
duty-cycle division is applied afterwards to tx_time_s only; the rx term
of the daily consumption therefore uses the undivided transmission
time, and this ordering is observable: deriving rx from the adjusted
time would change the LoRaWAN result under the default scenario. -/
theorem C2_rx_before_duty_adjustment :
    (∀ (proto : ProtocolParams) (sc : Scenario) (b hf : ℚ),
      proto.duty_cycle_limit < 1 →
      rx_time_s proto sc hf = tx_time_s_pre proto sc hf * sc.rx_ratio ∧
      (estimate proto sc b hf).consumo_mAh_dia =
        proto.tx_current_mA *
            (tx_time_s_pre proto sc hf / proto.duty_cycle_limit * (sc.msgs_per_day : ℚ) / 3600) +
          proto.rx_current_mA *
            (tx_time_s_pre proto sc hf * sc.rx_ratio * (sc.msgs_per_day : ℚ) / 3600) +
          proto.idle_current_mA * idle_h proto sc hf) ∧
    (estimate lorawanParams defaultScenario 2400 1).consumo_mAh_dia ≠
      (estimateRxAfterDuty lorawanParams defaultScenario 2400 1).consumo_mAh_dia := by
  constructor
  · intro proto sc b hf hd
    refine ⟨rfl, ?_⟩
    simp [estimate, daily_mAh_per_sensor, tx_total_h, rx_total_h, rx_time_s, tx_time_s, hd]
  · norm_num [estimate, estimateRxAfterDuty, daily_mAh_per_sensor, tx_total_h, rx_total_h,
      idle_h, active_h, rx_time_s, tx_time_s, tx_time_s_pre, bits_total, bytes_total, pyInt,
      lorawanParams, defaultScenario, scenario]

/-- Witness for C2: the decomposition applied to the LoRaWAN entry
under the default scenario. -/
theorem C2_witness :
    rx_time_s lorawanParams defaultScenario 1 =
      tx_time_s_pre lorawanParams defaultScenario 1 * defaultScenario.rx_ratio ∧
    (estimate lorawanParams defaultScenario 2400 1).consumo_mAh_dia =
      lorawanParams.tx_current_mA *
          (tx_time_s_pre lorawanParams defaultScenario 1 / lorawanParams.duty_cycle_limit *
            (defaultScenario.msgs_per_day : ℚ) / 3600) +
        lorawanParams.rx_current_mA *
          (tx_time_s_pre lorawanParams defaultScenario 1 * defaultScenario.rx_ratio *
            (defaultScenario.msgs_per_day : ℚ) / 3600) +
        lorawanParams.idle_current_mA * idle_h lorawanParams defaultScenario 1 :=
  C2_rx_before_duty_adjustment.1 lorawanParams defaultScenario 2400 1
    (by norm_num [lorawanParams])

/-- C3: latencia_ms equals base_latency_ms plus 1000 times the
duty-cycle-adjusted tx_time_s, so a protocol with a duty-cycle limit
strictly between zero and one has strictly larger latency than the
otherwise identical protocol with limit one. -/
theorem C3_latency_reflects_duty_penalty (proto : ProtocolParams) (sc : Scenario) (b hf : ℚ)
    (hbr : 0 < proto.bitrate_bps) (hd0 : 0 < proto.duty_cycle_limit)
    (hd1 : proto.duty_cycle_limit < 1) (hp : 1 ≤ sc.payload_bytes)
    (hov : 0 ≤ proto.overhead_bytes) (hhf : 0 ≤ hf) :
    (estimate proto sc b hf).latencia_ms =
      proto.base_latency_ms + tx_time_s proto sc hf * 1000 ∧
    (estimate { proto with duty_cycle_limit := 1 } sc b hf).latencia_ms <
      (estimate proto sc b hf).latencia_ms := by
  refine ⟨rfl, ?_⟩
  have hpre : 0 < tx_time_s_pre proto sc hf := tx_time_s_pre_pos proto sc hbr hp hov hhf
  have key : tx_time_s_pre proto sc hf <
      tx_time_s_pre proto sc hf / proto.duty_cycle_limit := by
    rw [lt_div_iff₀ hd0]
    nlinarith
  have h1 : (estimate proto sc b hf).latencia_ms =
      proto.base_latency_ms + tx_time_s_pre proto sc hf / proto.duty_cycle_limit * 1000 := by
    simp [estimate, latency_ms, tx_time_s, hd1]
  have hproj : tx_time_s { proto with duty_cycle_limit := 1 } sc hf =
      tx_time_s_pre proto sc hf := by
    simp only [tx_time_s]
    rw [if_neg (by simp)]
    rfl
  have h2 : (estimate { proto with duty_cycle_limit := 1 } sc b hf).latencia_ms =
      proto.base_latency_ms + tx_time_s_pre proto sc hf * 1000 := by
    simp only [estimate, latency_ms, hproj]
  rw [h1, h2]
  linarith

/-- Witness for C3: the LoRaWAN entry under the default scenario. -/
theorem C3_witness :
    (estimate lorawanParams defaultScenario 2400 1).latencia_ms =
      lorawanParams.base_latency_ms + tx_time_s lorawanParams defaultScenario 1 * 1000 ∧
    (estimate { lorawanParams with duty_cycle_limit := 1 } defaultScenario 2400 1).latencia_ms <
      (estimate lorawanParams defaultScenario 2400 1).latencia_ms :=
  C3_latency_reflects_duty_penalty lorawanParams defaultScenario 2400 1
    (by norm_num [lorawanParams]) (by norm_num [lorawanParams]) (by norm_num [lorawanParams])
    (by norm_num [defaultScenario, scenario]) (by norm_num [lorawanParams]) (by norm_num)

/-- C6: dias_bateria is battery_mAh divided by the daily consumption
when the latter is strictly positive, and positive infinity when it is
exactly zero; a protocol with all three currents zero yields positive
infinity for every scenario without any error. -/
theorem C6_days_battery_division_and_infinity (proto : ProtocolParams) (sc : Scenario)
    (b hf : ℚ) :
    (0 < (estimate proto sc b hf).consumo_mAh_dia →
      (estimate proto sc b hf).dias_bateria =
        BatteryDays.finite (b / (estimate proto sc b hf).consumo_mAh_dia)) ∧
    ((estimate proto sc b hf).consumo_mAh_dia = 0 →
      (estimate proto sc b hf).dias_bateria = BatteryDays.posInf) ∧
    (estimate zeroCurrentParams sc b hf).dias_bateria = BatteryDays.posInf := by
  refine ⟨fun h => ?_, fun h => ?_, ?_⟩
  · simp only [estimate] at h ⊢
    rw [if_pos h]
  · simp only [estimate] at h ⊢
    rw [if_neg]
    rw [h]
    exact lt_irrefl 0
  · simp [estimate, daily_mAh_per_sensor, zeroCurrentParams]

/-- Witness for C6: WiFi under the default scenario has strictly
positive daily consumption, so its battery life is the finite quotient. -/
theorem C6_witness :
    (estimate wifiParams defaultScenario 2400 1).dias_bateria =
      BatteryDays.finite (2400 / (estimate wifiParams defaultScenario 2400 1).consumo_mAh_dia) :=
  (C6_days_battery_division_and_infinity wifiParams defaultScenario 2400 1).1
    (by norm_num [estimate, daily_mAh_per_sensor, tx_total_h, rx_total_h, idle_h, active_h,
      rx_time_s, tx_time_s, tx_time_s_pre, bits_total, bytes_total, pyInt,
      wifiParams, defaultScenario, scenario])

/-- C9: the engine never reads n_sensors, so two scenarios agreeing on
msgs_per_day, payload_bytes and rx_ratio produce identical results for
every protocol, battery capacity and header factor. -/
theorem C9_independent_of_n_sensors (proto : ProtocolParams) (b hf : ℚ) (sc1 sc2 : Scenario)
    (hm : sc1.msgs_per_day = sc2.msgs_per_day)
    (hp : sc1.payload_bytes = sc2.payload_bytes)
    (hr : sc1.rx_ratio = sc2.rx_ratio) :
    estimate proto sc1 b hf = estimate proto sc2 b hf := by
  obtain ⟨n1, m1, p1, r1⟩ := sc1
  obtain ⟨n2, m2, p2, r2⟩ := sc2
  change m1 = m2 at hm
  change p1 = p2 at hp
  change r1 = r2 at hr
  subst hm; subst hp; subst hr
  rfl

/-- Witness for C9: one sensor versus one hundred sensors, all other
scenario fields at their defaults, for the WiFi entry. -/
theorem C9_witness :
    estimate wifiParams (scenario 1 24 50 (1/10)) 2400 1 =
      estimate wifiParams (scenario 100 24 50 (1/10)) 2400 1 :=
  C9_independent_of_n_sensors wifiParams 2400 1 _ _ rfl rfl rfl

theorem daily_mAh_nonneg (proto : ProtocolParams) (sc : Scenario) {hf : ℚ}
    (htx : 0 ≤ proto.tx_current_mA) (hrx : 0 ≤ proto.rx_current_mA)
    (hid : 0 ≤ proto.idle_current_mA) (hbr : 0 < proto.bitrate_bps)
    (hd : 0 < proto.duty_cycle_limit) (hp : 0 ≤ sc.payload_bytes)
    (hov : 0 ≤ proto.overhead_bytes) (hhf : 0 ≤ hf)
    (hm : 0 ≤ sc.msgs_per_day) (hr : 0 ≤ sc.rx_ratio) :
    0 ≤ daily_mAh_per_sensor proto sc hf := by
  have ht := tx_time_s_nonneg proto sc hbr hd hp hov hhf
  have htpre := tx_time_s_pre_nonneg proto sc hbr hp hov hhf
  have hm2 : (0 : ℚ) ≤ (sc.msgs_per_day : ℚ) := by exact_mod_cast hm
  have htxh : 0 ≤ tx_total_h proto sc hf :=
    div_nonneg (mul_nonneg ht hm2) (by norm_num)
  have hrxh : 0 ≤ rx_total_h proto sc hf :=
    div_nonneg (mul_nonneg (mul_nonneg htpre hr) hm2) (by norm_num)
  have hih : 0 ≤ idle_h proto sc hf := le_max_left 0 _
  exact add_nonneg (add_nonneg (mul_nonneg htx htxh) (mul_nonneg hrx hrxh))
    (mul_nonneg hid hih)

theorem daily_mAh_pos (proto : ProtocolParams) (sc : Scenario) {hf : ℚ}
    (htx : 0 < proto.tx_current_mA) (hrx : 0 ≤ proto.rx_current_mA)
    (hid : 0 ≤ proto.idle_current_mA) (hbr : 0 < proto.bitrate_bps)
    (hd : 0 < proto.duty_cycle_limit) (hp : 1 ≤ sc.payload_bytes)
    (hov : 0 ≤ proto.overhead_bytes) (hhf : 0 ≤ hf)
    (hm : 1 ≤ sc.msgs_per_day) (hr : 0 ≤ sc.rx_ratio) :
    0 < daily_mAh_per_sensor proto sc hf := by
  have htpre := tx_time_s_pre_nonneg proto sc hbr (by omega) hov hhf
  have ht := tx_time_s_pos proto sc hbr hd hp hov hhf
  have hm2 : (1 : ℚ) ≤ (sc.msgs_per_day : ℚ) := by exact_mod_cast hm
  have htxh : 0 < tx_total_h proto sc hf :=
    div_pos (mul_pos ht (by linarith)) (by norm_num)
  have hrxh : 0 ≤ rx_total_h proto sc hf :=
    div_nonneg (mul_nonneg (mul_nonneg htpre hr) (by linarith)) (by norm_num)
  have hih : 0 ≤ idle_h proto sc hf := le_max_left 0 _
  have h1 : 0 < proto.tx_current_mA * tx_total_h proto sc hf := mul_pos htx htxh
  have h2 : 0 ≤ proto.rx_current_mA * rx_total_h proto sc hf := mul_nonneg hrx hrxh
  have h3 : 0 ≤ proto.idle_current_mA * idle_h proto sc hf := mul_nonneg hid hih
  simp only [daily_mAh_per_sensor]
  linarith

theorem catalog_field_bounds (p : ProtocolParams) (hmem : p ∈ default_protocols) :
    0 < p.tx_current_mA ∧ 0 ≤ p.rx_current_mA ∧ 0 ≤ p.idle_current_mA ∧
    0 < p.bitrate_bps ∧ 0 < p.duty_cycle_limit ∧ p.duty_cycle_limit ≤ 1 ∧
    0 ≤ p.overhead_bytes ∧ 0 ≤ p.base_latency_ms := by
  simp only [default_protocols] at hmem
  fin_cases hmem <;>
    norm_num [wifiParams, zigbeeParams, lorawanParams, nbiotParams]

/-- C7: for every catalog protocol and every valid scenario, battery
capacity and header factor, the engine returns non-negative consumption
and latency, battery life that is non-negative or positive infinity,
and idle hours clamped at zero. -/
theorem C7_catalog_outputs_nonneg (proto : ProtocolParams) (sc : Scenario) (b hf : ℚ)
    (hmem : proto ∈ default_protocols)
    (hp : 1 ≤ sc.payload_bytes) (hm : 1 ≤ sc.msgs_per_day)
    (hr0 : 0 ≤ sc.rx_ratio) (hr1 : sc.rx_ratio ≤ 1)
    (hhf : 1/2 ≤ hf) (hhf3 : hf ≤ 3) (hb : 0 ≤ b) :
    0 ≤ (estimate proto sc b hf).consumo_mAh_dia ∧
    0 ≤ (estimate proto sc b hf).latencia_ms ∧
    ((estimate proto sc b hf).dias_bateria = BatteryDays.posInf ∨
      ∃ d, (estimate proto sc b hf).dias_bateria = BatteryDays.finite d ∧ 0 ≤ d) ∧
    0 ≤ idle_h proto sc hf := by
  obtain ⟨htx, hrx, hid, hbr, hd, -, hov, hbase⟩ := catalog_field_bounds proto hmem
  have hhf0 : (0 : ℚ) ≤ hf := by linarith
  have hdaily : 0 ≤ daily_mAh_per_sensor proto sc hf :=
    daily_mAh_nonneg proto sc (le_of_lt htx) hrx hid hbr hd (by omega) hov hhf0
      (by omega) hr0
  have ht := tx_time_s_nonneg proto sc hbr hd (by omega) hov hhf0
  refine ⟨hdaily, ?_, ?_, le_max_left 0 _⟩
  · have : 0 ≤ tx_time_s proto sc hf * 1000 := mul_nonneg ht (by norm_num)
    simp only [estimate, latency_ms]
    linarith
  · by_cases hpos : 0 < daily_mAh_per_sensor proto sc hf
    · right
      refine ⟨b / daily_mAh_per_sensor proto sc hf, ?_, div_nonneg hb (le_of_lt hpos)⟩
      simp only [estimate]
      rw [if_pos hpos]
    · left
      simp only [estimate]
      rw [if_neg hpos]

/-- Witness for C7: the NB-IoT entry under the default scenario with
the default battery capacity and header factor. -/
theorem C7_witness :
    0 ≤ (estimate nbiotParams defaultScenario 2400 1).consumo_mAh_dia ∧
    0 ≤ (estimate nbiotParams defaultScenario 2400 1).latencia_ms ∧
    ((estimate nbiotParams defaultScenario 2400 1).dias_bateria = BatteryDays.posInf ∨
      ∃ d, (estimate nbiotParams defaultScenario 2400 1).dias_bateria =
          BatteryDays.finite d ∧ 0 ≤ d) ∧
    0 ≤ idle_h nbiotParams defaultScenario 1 :=
  C7_catalog_outputs_nonneg nbiotParams defaultScenario 2400 1
    (by norm_num [default_protocols]) (by norm_num [defaultScenario, scenario])
    (by norm_num [defaultScenario, scenario]) (by norm_num [defaultScenario, scenario])
    (by norm_num [defaultScenario, scenario]) (by norm_num) (by norm_num) (by norm_num)

/-- C10: for every catalog protocol and every valid scenario, the daily
consumption is strictly positive, so dias_bateria is the finite
quotient and the positive-infinity branch is unreachable for the
shipped catalog. -/
theorem C10_catalog_days_always_finite (proto : ProtocolParams) (sc : Scenario) (b hf : ℚ)
    (hmem : proto ∈ default_protocols)
    (hp : 1 ≤ sc.payload_bytes) (hp2 : sc.payload_bytes ≤ 1024)
    (hm : 1 ≤ sc.msgs_per_day)
    (hr0 : 0 ≤ sc.rx_ratio) (hr1 : sc.rx_ratio ≤ 1)
    (hhf : 1/2 ≤ hf) (hhf3 : hf ≤ 3) :
    0 < (estimate proto sc b hf).consumo_mAh_dia ∧
    (estimate proto sc b hf).dias_bateria =
      BatteryDays.finite (b / (estimate proto sc b hf).consumo_mAh_dia) := by
  obtain ⟨htx, hrx, hid, hbr, hd, -, hov, -⟩ := catalog_field_bounds proto hmem
  have hhf0 : (0 : ℚ) ≤ hf := by linarith
  have hdaily : 0 < daily_mAh_per_sensor proto sc hf :=
    daily_mAh_pos proto sc htx hrx hid hbr hd hp hov hhf0 hm hr0
  refine ⟨hdaily, ?_⟩
  simp only [estimate]
  rw [if_pos hdaily]

/-- Witness for C10: the LoRaWAN entry under the default scenario. -/
theorem C10_witness :
    0 < (estimate lorawanParams defaultScenario 2400 1).consumo_mAh_dia ∧
    (estimate lorawanParams defaultScenario 2400 1).dias_bateria =
      BatteryDays.finite
        (2400 / (estimate lorawanParams defaultScenario 2400 1).consumo_mAh_dia) :=
  C10_catalog_days_always_finite lorawanParams defaultScenario 2400 1
    (by norm_num [default_protocols]) (by norm_num [defaultScenario, scenario])
    (by norm_num [defaultScenario, scenario]) (by norm_num [defaultScenario, scenario])
    (by norm_num [defaultScenario, scenario]) (by norm_num [defaultScenario, scenario])
    (by norm_num) (by norm_num)

theorem max_zero_sub_le {x y : ℚ} (h : x ≤ y) : max 0 y - max 0 x ≤ y - x := by
  rcases max_cases 0 x with ⟨h1, h1b⟩ | ⟨h1, h1b⟩ <;>
    rcases max_cases 0 y with ⟨h2, h2b⟩ | ⟨h2, h2b⟩ <;> rw [h1, h2] <;> linarith

theorem daily_formula_mono (txc rxc idc t rr m1 m2 : ℚ)
    (h_id_tx : idc ≤ txc) (h_id_rx : idc ≤ rxc) (h_id0 : 0 ≤ idc)
    (ht : 0 ≤ t) (hrr : 0 ≤ rr) (hm : m1 ≤ m2) :
    txc * (t * m1 / 3600) + rxc * (t * rr * m1 / 3600) +
        idc * max 0 (24 - (t * m1 / 3600 + t * rr * m1 / 3600)) ≤
      txc * (t * m2 / 3600) + rxc * (t * rr * m2 / 3600) +
        idc * max 0 (24 - (t * m2 / 3600 + t * rr * m2 / 3600)) := by
  have h1 : t * m1 ≤ t * m2 := mul_le_mul_of_nonneg_left hm ht
  have h2 : t * rr * m1 ≤ t * rr * m2 := mul_le_mul_of_nonneg_left hm (mul_nonneg ht hrr)
  have hX : (24 - (t * m2 / 3600 + t * rr * m2 / 3600)) ≤
      (24 - (t * m1 / 3600 + t * rr * m1 / 3600)) := by linarith
  have hmax := max_zero_sub_le hX
  have hmul := mul_le_mul_of_nonneg_left hmax h_id0
  have hud : 0 ≤ t * m2 / 3600 - t * m1 / 3600 := by linarith
  have hvd : 0 ≤ t * rr * m2 / 3600 - t * rr * m1 / 3600 := by linarith
  have e1 : 0 ≤ (txc - idc) * (t * m2 / 3600 - t * m1 / 3600) :=
    mul_nonneg (by linarith) hud
  have e2 : 0 ≤ (rxc - idc) * (t * rr * m2 / 3600 - t * rr * m1 / 3600) :=
    mul_nonneg (by linarith) hvd
  nlinarith [hmul, e1, e2]

/-- C5 counterexample: the claim as stated fails for a protocol whose
idle current exceeds its tx and rx currents.  The synthetic protocol
idleHeavyParams has duty_cycle_limit one, the two scenarios are valid
and differ only in msgs_per_day, yet the larger msgs_per_day yields a
strictly smaller consumo_mAh_dia, because each transmitted message
replaces expensive idle time with free tx time. -/
theorem C5_counterexample :
    idleHeavyParams.duty_cycle_limit = 1 ∧
    (scenario 1 1 900 0).payload_bytes = (scenario 1 2 900 0).payload_bytes ∧
    (scenario 1 1 900 0).rx_ratio = (scenario 1 2 900 0).rx_ratio ∧
    (scenario 1 1 900 0).msgs_per_day < (scenario 1 2 900 0).msgs_per_day ∧
    1 ≤ (scenario 1 1 900 0).payload_bytes ∧ (scenario 1 1 900 0).payload_bytes ≤ 1024 ∧
    0 ≤ (scenario 1 1 900 0).rx_ratio ∧ (scenario 1 1 900 0).rx_ratio ≤ 1 ∧
    (estimate idleHeavyParams (scenario 1 2 900 0) 2400 1).consumo_mAh_dia <
      (estimate idleHeavyParams (scenario 1 1 900 0) 2400 1).consumo_mAh_dia := by
  norm_num [estimate, daily_mAh_per_sensor, tx_total_h, rx_total_h, idle_h, active_h,
    rx_time_s, tx_time_s, tx_time_s_pre, bits_total, bytes_total, pyInt,
    idleHeavyParams, scenario]

/-- C5 (amended): for a protocol with duty_cycle_limit one whose idle
current is at most both its tx and its rx current (as holds for every
shipped catalog protocol with limit one), increasing msgs_per_day while
holding the other scenario fields fixed never decreases
consumo_mAh_dia. -/
theorem C5_msgs_monotone_for_low_idle (proto : ProtocolParams) (sc1 sc2 : Scenario)
    (b hf : ℚ)
    (hduty : proto.duty_cycle_limit = 1)
    (hidtx : proto.idle_current_mA ≤ proto.tx_current_mA)
    (hidrx : proto.idle_current_mA ≤ proto.rx_current_mA)
    (hid0 : 0 ≤ proto.idle_current_mA)
    (hbr : 0 < proto.bitrate_bps) (hov : 0 ≤ proto.overhead_bytes) (hhf : 0 ≤ hf)
    (hpay : sc1.payload_bytes = sc2.payload_bytes) (hrr : sc1.rx_ratio = sc2.rx_ratio)
    (hp : 0 ≤ sc1.payload_bytes) (hr0 : 0 ≤ sc1.rx_ratio)
    (hm : sc1.msgs_per_day ≤ sc2.msgs_per_day) :
    (estimate proto sc1 b hf).consumo_mAh_dia ≤
      (estimate proto sc2 b hf).consumo_mAh_dia := by
  have hts1 : tx_time_s proto sc1 hf = tx_time_s_pre proto sc1 hf := by
    simp [tx_time_s, hduty]
  have hts2 : tx_time_s proto sc2 hf = tx_time_s_pre proto sc2 hf := by
    simp [tx_time_s, hduty]
  have hpre12 : tx_time_s_pre proto sc2 hf = tx_time_s_pre proto sc1 hf := by
    simp only [tx_time_s_pre, bits_total, bytes_total, hpay]
  have htpre : 0 ≤ tx_time_s_pre proto sc1 hf :=
    tx_time_s_pre_nonneg proto sc1 hbr hp hov hhf
  have hm2 : ((sc1.msgs_per_day : ℚ)) ≤ (sc2.msgs_per_day : ℚ) := by exact_mod_cast hm
  simp only [estimate, daily_mAh_per_sensor, tx_total_h, rx_total_h, idle_h, active_h,
    rx_time_s, hts1, hts2, hpre12, ← hrr]
  exact daily_formula_mono _ _ _ _ _ _ _ hidtx hidrx hid0 htpre hr0 hm2

/-- Witness for the amended C5: WiFi with 24 versus 48 messages per day,
all other fields at the defaults. -/
theorem C5_witness :
    (estimate wifiParams (scenario 100 24 50 (1/10)) 2400 1).consumo_mAh_dia ≤
      (estimate wifiParams (scenario 100 48 50 (1/10)) 2400 1).consumo_mAh_dia :=
  C5_msgs_monotone_for_low_idle wifiParams (scenario 100 24 50 (1/10))
    (scenario 100 48 50 (1/10)) 2400 1
    (by norm_num [wifiParams]) (by norm_num [wifiParams]) (by norm_num [wifiParams])
    (by norm_num [wifiParams]) (by norm_num [wifiParams]) (by norm_num [wifiParams])
    (by norm_num) (by norm_num [scenario]) (by norm_num [scenario])
    (by norm_num [scenario]) (by norm_num [scenario]) (by norm_num [scenario])

theorem firstMinBy_spec (f : EstimationResult → ℚ) (l : List EstimationResult)
    (hne : l ≠ []) :
    ∃ r l1 l2, firstMinBy f l = some r ∧ l = l1 ++ r :: l2 ∧
      (∀ s ∈ l1, f r < f s) ∧ (∀ s ∈ l, f r ≤ f s) := by
  induction l with
  | nil => exact absurd rfl hne
  | cons x t ih =>
    rcases eq_or_ne t [] with ht | ht
    · subst ht
      exact ⟨x, [], [], rfl, rfl, by simp, by simp⟩
    · obtain ⟨s, l1, l2, hfind, hsplit, hl1, hall⟩ := ih ht
      by_cases hle : f x ≤ f s
      · refine ⟨x, [], t, ?_, rfl, by simp, ?_⟩
        · simp [firstMinBy, hfind, hle]
        · intro a ha
          rcases List.mem_cons.mp ha with h | h
          · exact le_of_eq (congrArg f h.symm)
          · exact le_trans hle (hall a h)
      · refine ⟨s, x :: l1, l2, ?_, by simp [hsplit], ?_, ?_⟩
        · simp [firstMinBy, hfind, hle]
        · intro a ha
          rcases List.mem_cons.mp ha with h | h
          · exact h ▸ lt_of_not_le hle
          · exact hl1 a h
        · intro a ha
          rcases List.mem_cons.mp ha with h | h
          · exact h ▸ le_of_lt (lt_of_not_le hle)
          · exact hall a h

theorem firstMaxBy_spec (f : EstimationResult → ℚ) (l : List EstimationResult)
    (hne : l ≠ []) :
    ∃ r l1 l2, firstMaxBy f l = some r ∧ l = l1 ++ r :: l2 ∧
      (∀ s ∈ l1, f s < f r) ∧ (∀ s ∈ l, f s ≤ f r) := by
  induction l with
  | nil => exact absurd rfl hne
  | cons x t ih =>
    rcases eq_or_ne t [] with ht | ht
    · subst ht
      exact ⟨x, [], [], rfl, rfl, by simp, by simp⟩
    · obtain ⟨s, l1, l2, hfind, hsplit, hl1, hall⟩ := ih ht
      by_cases hle : f s ≤ f x
      · refine ⟨x, [], t, ?_, rfl, by simp, ?_⟩
        · simp [firstMaxBy, hfind, hle]
        · intro a ha
          rcases List.mem_cons.mp ha with h | h
          · exact le_of_eq (congrArg f h)
          · exact le_trans (hall a h) hle
      · refine ⟨s, x :: l1, l2, ?_, by simp [hsplit], ?_, ?_⟩
        · simp [firstMaxBy, hfind, hle]
        · intro a ha
          rcases List.mem_cons.mp ha with h | h
          · exact h ▸ lt_of_not_le hle
          · exact hl1 a h
        · intro a ha
          rcases List.mem_cons.mp ha with h | h
          · exact h ▸ le_of_lt (lt_of_not_le hle)
          · exact hall a h

/-- C8: on every non-empty result list the summary picks the name of
the first element attaining the minimal consumo_mAh_dia, the first
attaining the maximal cobertura_m, and the first attaining the minimal
latencia_ms: the chosen element is extremal over the whole list and
strictly better than everything before it, so ties go to the first
occurrence in the supplied order. -/
theorem C8_summary_superlatives (rs : List EstimationResult) (hne : rs ≠ []) :
    (∃ r l1 l2, rs = l1 ++ r :: l2 ∧ best_energy rs = some r.protocol ∧
      (∀ s ∈ rs, r.consumo_mAh_dia ≤ s.consumo_mAh_dia) ∧
      ∀ s ∈ l1, r.consumo_mAh_dia < s.consumo_mAh_dia) ∧
    (∃ r l1 l2, rs = l1 ++ r :: l2 ∧ best_coverage rs = some r.protocol ∧
      (∀ s ∈ rs, s.cobertura_m ≤ r.cobertura_m) ∧
      ∀ s ∈ l1, s.cobertura_m < r.cobertura_m) ∧
    (∃ r l1 l2, rs = l1 ++ r :: l2 ∧ best_latency rs = some r.protocol ∧
      (∀ s ∈ rs, r.latencia_ms ≤ s.latencia_ms) ∧
      ∀ s ∈ l1, r.latencia_ms < s.latencia_ms) := by
  refine ⟨?_, ?_, ?_⟩
  · obtain ⟨r, l1, l2, hfind, hsplit, hl1, hall⟩ :=
      firstMinBy_spec (fun r => r.consumo_mAh_dia) rs hne
    exact ⟨r, l1, l2, hsplit, by simp [best_energy, hfind], hall, hl1⟩
  · obtain ⟨r, l1, l2, hfind, hsplit, hl1, hall⟩ :=
      firstMaxBy_spec (fun r => r.cobertura_m) rs hne
    exact ⟨r, l1, l2, hsplit, by simp [best_coverage, hfind], hall, hl1⟩
  · obtain ⟨r, l1, l2, hfind, hsplit, hl1, hall⟩ :=
      firstMinBy_spec (fun r => r.latencia_ms) rs hne
    exact ⟨r, l1, l2, hsplit, by simp [best_latency, hfind], hall, hl1⟩

/-- Sample one-element result list used by the C8 witness. -/
def sampleResults : List EstimationResult :=
  [estimate wifiParams defaultScenario 2400 1]

/-- Witness for C8: the characterization applied to a concrete
one-element result list. -/
theorem C8_witness :
    (∃ r l1 l2, sampleResults = l1 ++ r :: l2 ∧
      best_energy sampleResults = some r.protocol ∧
      (∀ s ∈ sampleResults, r.consumo_mAh_dia ≤ s.consumo_mAh_dia) ∧
      ∀ s ∈ l1, r.consumo_mAh_dia < s.consumo_mAh_dia) ∧
    (∃ r l1 l2, sampleResults = l1 ++ r :: l2 ∧
      best_coverage sampleResults = some r.protocol ∧
      (∀ s ∈ sampleResults, s.cobertura_m ≤ r.cobertura_m) ∧
      ∀ s ∈ l1, s.cobertura_m < r.cobertura_m) ∧
    (∃ r l1 l2, sampleResults = l1 ++ r :: l2 ∧
      best_latency sampleResults = some r.protocol ∧
      (∀ s ∈ sampleResults, r.latencia_ms ≤ s.latencia_ms) ∧
      ∀ s ∈ l1, r.latencia_ms < s.latencia_ms) :=
  C8_summary_superlatives sampleResults (by simp [sampleResults])
